import Mathlib

/-!
Shallow embedding of the Mattrix hybrid storage/integrity layer
(src/hybrid-storage.ts and src/database.ts) in Lean 4, together with
theorems settling the frozen claims about it.

Conventions of the embedding:
* machine integers and timestamps are `Nat` (milliseconds since epoch);
* the PostgreSQL tables are lists of rows in insertion order;
* the GolemDB ledger is an append-only list of `DataHash` records;
* fallible operations return `Except StorageError`;
* sources of nondeterminism of the source code (wall clock `Date.now()`,
  `Math.random()` suffixes, Pinata upload outcomes, GolemDB indexing
  latency) are passed in as explicit parameters.
-/

namespace Mattrix

/-! ### Hex characters and SHA-256 over byte lists

`generateHash` in src/hybrid-storage.ts is
`createHash('sha256').update(JSON.stringify(data, Object.keys(data).sort()), 'utf8').digest('hex')`.
We implement SHA-256 over `List Nat` bytes (each < 256), with 32-bit words
as `Nat` reduced mod 2^32. -/

/-- Reduce to a 32-bit word. -/
def w32 (n : Nat) : Nat := n % 4294967296

/-- Bitwise complement within 32 bits (operands are kept < 2^32). -/
def not32 (n : Nat) : Nat := 4294967295 - n

/-- Rotate a 32-bit word right by `k`. -/
def rotr32 (k x : Nat) : Nat := w32 ((x >>> k) ||| (x <<< (32 - k)))

def shaCh (e f g : Nat) : Nat := (e &&& f) ^^^ (not32 e &&& g)

def shaMaj (a b c : Nat) : Nat := (a &&& b) ^^^ (a &&& c) ^^^ (b &&& c)

def bigSigma0 (x : Nat) : Nat := rotr32 2 x ^^^ rotr32 13 x ^^^ rotr32 22 x

def bigSigma1 (x : Nat) : Nat := rotr32 6 x ^^^ rotr32 11 x ^^^ rotr32 25 x

def smallSigma0 (x : Nat) : Nat := rotr32 7 x ^^^ rotr32 18 x ^^^ (x >>> 3)

def smallSigma1 (x : Nat) : Nat := rotr32 17 x ^^^ rotr32 19 x ^^^ (x >>> 10)

/-- The 64 SHA-256 round constants (decimal). -/
def shaK : List Nat :=
  [1116352408, 1899447441, 3049323471, 3921009573, 961987163,
   1508970993, 2453635748, 2870763221, 3624381080, 310598401,
   607225278, 1426881987, 1925078388, 2162078206, 2614888103,
   3248222580, 3835390401, 4022224774, 264347078, 604807628,
   770255983, 1249150122, 1555081692, 1996064986, 2554220882,
   2821834349, 2952996808, 3210313671, 3336571891, 3584528711,
   113926993, 338241895, 666307205, 773529912, 1294757372,
   1396182291, 1695183700, 1986661051, 2177026350, 2456956037,
   2730485921, 2820302411, 3259730800, 3345764771, 3516065817,
   3600352804, 4094571909, 275423344, 430227734, 506948616,
   659060556, 883997877, 958139571, 1322822218, 1537002063,
   1747873779, 1955562222, 2024104815, 2227730452, 2361852424,
   2428436474, 2756734187, 3204031479, 3329325298]

/-- The initial SHA-256 hash state (decimal). -/
def shaH0 : List Nat :=
  [1779033703, 3144134277, 1013904242, 2773480762,
   1359893119, 2600822924, 528734635, 1541459225]

/-- `k` bytes of `n`, big-endian. -/
def beBytes : Nat → Nat → List Nat
  | 0, _ => []
  | k + 1, n => beBytes k (n >>> 8) ++ [n % 256]

/-- SHA-256 padding: append 0x80, zero bytes to 56 mod 64, then the
bit length as 8 big-endian bytes. -/
def sha256Pad (msg : List Nat) : List Nat :=
  let L := msg.length
  let k := (119 - L % 64) % 64
  msg ++ [0x80] ++ List.replicate k 0 ++ beBytes 8 (8 * L)

/-- Group bytes into big-endian 32-bit words. -/
def toWords : List Nat → List Nat
  | b0 :: b1 :: b2 :: b3 :: rest =>
      ((((b0 <<< 8) ||| b1) <<< 8 ||| b2) <<< 8 ||| b3) :: toWords rest
  | _ => []

/-- Split a byte list into 64-byte blocks (fuel-structural so that the
kernel can evaluate it; fuel `l.length` always suffices). -/
def splitChunksFuel : Nat → List Nat → List (List Nat)
  | _, [] => []
  | 0, _ :: _ => []
  | fuel + 1, a :: rest => ((a :: rest).take 64) :: splitChunksFuel fuel ((a :: rest).drop 64)

/-- Split a byte list into 64-byte blocks. -/
def splitChunks (l : List Nat) : List (List Nat) := splitChunksFuel l.length l

/-- Extend 16 message words to the 64-entry message schedule. -/
def shaSchedule (w16 : List Nat) : List Nat :=
  (List.range' 16 48).foldl
    (fun w i =>
      let s0 := smallSigma0 (w.getD (i - 15) 0)
      let s1 := smallSigma1 (w.getD (i - 2) 0)
      w ++ [w32 (w.getD (i - 16) 0 + s0 + w.getD (i - 7) 0 + s1)])
    w16

/-- One SHA-256 compression round. -/
def shaRound (w : List Nat) (st : List Nat) (i : Nat) : List Nat :=
  match st with
  | [a, b, c, d, e, f, g, h] =>
      let t1 := w32 (h + bigSigma1 e + shaCh e f g + shaK.getD i 0 + w.getD i 0)
      let t2 := w32 (bigSigma0 a + shaMaj a b c)
      [w32 (t1 + t2), a, b, c, w32 (d + t1), e, f, g]
  | st => st

/-- Compress one 64-byte block into the running hash state. -/
def compressBlock (h : List Nat) (block : List Nat) : List Nat :=
  let w := shaSchedule (toWords block)
  let fin := (List.range 64).foldl (shaRound w) h
  List.zipWith (fun x y => w32 (x + y)) h fin

/-- SHA-256 digest (32 bytes) of a byte list. -/
def sha256Bytes (msg : List Nat) : List Nat :=
  (((splitChunks (sha256Pad msg)).foldl compressBlock shaH0).map (beBytes 4)).flatten

def hexChar (n : Nat) : Char :=
  if n < 10 then Char.ofNat (48 + n) else Char.ofNat (87 + n)

def byteHex (b : Nat) : List Char := [hexChar (b >>> 4), hexChar (b % 16)]

/-- Hex-encoded SHA-256 digest of a byte list. -/
def sha256Hex (msg : List Nat) : String :=
  String.mk ((sha256Bytes msg).map byteHex).flatten

/-- UTF-8 encoding of one character. -/
def utf8Char (c : Char) : List Nat :=
  let n := c.toNat
  if n < 0x80 then [n]
  else if n < 0x800 then [0xc0 ||| (n >>> 6), 0x80 ||| (n &&& 0x3f)]
  else if n < 0x10000 then
    [0xe0 ||| (n >>> 12), 0x80 ||| ((n >>> 6) &&& 0x3f), 0x80 ||| (n &&& 0x3f)]
  else
    [0xf0 ||| (n >>> 18), 0x80 ||| ((n >>> 12) &&& 0x3f),
     0x80 ||| ((n >>> 6) &&& 0x3f), 0x80 ||| (n &&& 0x3f)]

/-- UTF-8 bytes of a string. -/
def strBytes (s : String) : List Nat := (s.data.map utf8Char).flatten

/-! ### The JSON value model and `JSON.stringify` with a sorted replacer array

Values appearing in the records this layer hashes: strings, numbers
(integral millisecond timestamps), booleans, null (SQL NULL surfaced by
`mapRowToContact`/`mapRowToBaseBuilder`), and arrays of strings (tags,
builderTypes). -/

inductive JVal where
  | jnull : JVal
  | jbool : Bool → JVal
  | jnum : Nat → JVal
  | jstr : String → JVal
  | jarr : List String → JVal
deriving DecidableEq, Repr

/-- JSON escaping of one character, as `JSON.stringify` does. -/
def jescapeChar (c : Char) : List Char :=
  if c = Char.ofNat 34 then [Char.ofNat 92, Char.ofNat 34]
  else if c = Char.ofNat 92 then [Char.ofNat 92, Char.ofNat 92]
  else if c = Char.ofNat 10 then [Char.ofNat 92, 'n']
  else if c = Char.ofNat 13 then [Char.ofNat 92, 'r']
  else if c = Char.ofNat 9 then [Char.ofNat 92, 't']
  else if c = Char.ofNat 8 then [Char.ofNat 92, 'b']
  else if c = Char.ofNat 12 then [Char.ofNat 92, 'f']
  else if c.toNat < 32 then
    [Char.ofNat 92, 'u', '0', '0', hexChar (c.toNat >>> 4), hexChar (c.toNat % 16)]
  else [c]

/-- A JSON string literal with escapes. -/
def jquote (s : String) : String :=
  "\"" ++ String.mk (s.data.map jescapeChar).flatten ++ "\""

/-- Serialize one JSON value. -/
def jvalStr : JVal → String
  | .jnull => "null"
  | .jbool true => "true"
  | .jbool false => "false"
  | .jnum n => Nat.repr n
  | .jstr s => jquote s
  | .jarr xs => "[" ++ String.intercalate "," (xs.map jquote) ++ "]"

/-- A record object, as an association list in property insertion order.
Keys present map to defined values; absent keys are JS `undefined` and are
skipped by `JSON.stringify`. -/
def JRecord := List (String × JVal)

/-- JS property access on a record. -/
def lookupKey (r : List (String × JVal)) (k : String) : Option JVal :=
  (r.find? (fun p => p.1 = k)).map (·.2)

/-- JS default string comparison: lexicographic on code units. -/
def charListLe : List Char → List Char → Bool
  | [], _ => true
  | _ :: _, [] => false
  | a :: as, b :: bs =>
    if a.toNat < b.toNat then true
    else if b.toNat < a.toNat then false
    else charListLe as bs

/-- `a <= b` for JS string sorting. -/
def jsStrLe (a b : String) : Bool := charListLe a.data b.data

/-- The sort order of `Object.keys(data).sort()` as a relation. -/
def keyLe (a b : String) : Prop := jsStrLe a b = true

instance : DecidableRel keyLe := fun a b => by unfold keyLe; infer_instance

/-- `Object.keys(data).sort()`: the record's own keys, sorted (a stable
sort, as `Array.prototype.sort` is). -/
def sortedKeys (r : List (String × JVal)) : List String :=
  List.insertionSort keyLe (r.map Prod.fst)

/-- `JSON.stringify(data, Object.keys(data).sort())`: serialize every key in
sorted order; a replacer array makes property order follow the array. -/
def stringifySorted (r : List (String × JVal)) : String :=
  "\x7b" ++
    String.intercalate ","
      ((sortedKeys r).filterMap
        (fun k => (lookupKey r k).map (fun v => jquote k ++ ":" ++ jvalStr v))) ++
  "\x7d"

/-- `HybridStorageManager.generateHash` on a record object
(src/hybrid-storage.ts lines 108-111). -/
def generateHash (r : List (String × JVal)) : String :=
  sha256Hex (strBytes (stringifySorted r))

/-- `HybridStorageManager.generateHash` applied to a bare string (the
`generateHash(ipfsResult.ipfsHash)` calls): `JSON.stringify` of a string
primitive ignores the replacer array and yields the quoted string. -/
def generateHashOfString (s : String) : String :=
  sha256Hex (strBytes (jquote s))

/-! ### `Date.prototype.toJSON` — ISO-8601 UTC from epoch milliseconds

`JSON.stringify` serializes `Date` values through `toISOString`. We model
timestamps as `Nat` milliseconds since the epoch. -/

def pad2 (n : Nat) : String := if n < 10 then "0" ++ Nat.repr n else Nat.repr n

def pad3 (n : Nat) : String :=
  if n < 10 then "00" ++ Nat.repr n else if n < 100 then "0" ++ Nat.repr n else Nat.repr n

def pad4 (n : Nat) : String :=
  if n < 10 then "000" ++ Nat.repr n
  else if n < 100 then "00" ++ Nat.repr n
  else if n < 1000 then "0" ++ Nat.repr n
  else Nat.repr n

/-- Civil date (year, month, day) from days since 1970-01-01 (proleptic
Gregorian; the standard era-based algorithm). -/
def civilFromDays (z0 : Nat) : Nat × Nat × Nat :=
  let z := z0 + 719468
  let era := z / 146097
  let doe := z % 146097
  let yoe := ((doe + doe / 36524) - (doe / 1460 + doe / 146096)) / 365
  let y0 := yoe + era * 400
  let doy := doe - ((365 * yoe + yoe / 4) - yoe / 100)
  let mp := (5 * doy + 2) / 153
  let d := (doy - (153 * mp + 2) / 5) + 1
  let m := if mp < 10 then mp + 3 else mp - 9
  (if m ≤ 2 then y0 + 1 else y0, m, d)

/-- `new Date(ms).toISOString()` for non-negative `ms`. -/
def isoString (ms : Nat) : String :=
  let days := ms / 86400000
  let rem := ms % 86400000
  let ymd := civilFromDays days
  pad4 ymd.1 ++ "-" ++ pad2 ymd.2.1 ++ "-" ++ pad2 ymd.2.2 ++ "T" ++
    pad2 (rem / 3600000) ++ ":" ++ pad2 (rem / 60000 % 60) ++ ":" ++
    pad2 (rem / 1000 % 60) ++ "." ++ pad3 (rem % 1000) ++ "Z"

/-! ### Data model (src/database.ts)

`Contact` mirrors the `Contact` interface; SQL NULLs of optional columns are
`Option`; timestamps are epoch milliseconds. -/

inductive Priority where
  | low | medium | high
deriving DecidableEq, Repr

def Priority.toStr : Priority → String
  | .low => "low"
  | .medium => "medium"
  | .high => "high"

structure Contact where
  id : String
  userId : String
  name : String
  position : Option String := none
  company : Option String := none
  email : Option String := none
  phone : Option String := none
  linkedin : Option String := none
  github : Option String := none
  telegram : Option String := none
  lens : Option String := none
  farcaster : Option String := none
  ens : Option String := none
  location : Option String := none
  goal : Option String := none
  notes : Option String := none
  tags : List String := []
  priority : Priority := .medium
  createdAt : Nat
  source : Option String := none
  photoPath : Option String := none
  photoFileId : Option String := none
  photoTakenAt : Option Nat := none
  hasFacialData : Bool := false
deriving DecidableEq, Repr

/-- The caller-supplied partial contact fields (`Partial&lt;Contact&gt;` as used
by `addContact`: every property optional). -/
structure ContactData where
  name : Option String := none
  position : Option String := none
  company : Option String := none
  email : Option String := none
  phone : Option String := none
  linkedin : Option String := none
  github : Option String := none
  telegram : Option String := none
  lens : Option String := none
  farcaster : Option String := none
  ens : Option String := none
  location : Option String := none
  goal : Option String := none
  notes : Option String := none
  tags : Option (List String) := none
  priority : Option Priority := none
  source : Option String := none
  photoPath : Option String := none
  photoFileId : Option String := none
  photoTakenAt : Option Nat := none
  hasFacialData : Option Bool := none
deriving DecidableEq, Repr

structure BaseBuilder where
  id : String
  userId : String
  email : String
  fullName : String
  builderTypes : List String := []
  buildingOnBase : String
  location : String
  country : String
  baseAmbassador : String
  discordUsername : Option String := none
  telegramUsername : Option String := none
  twitterUsername : Option String := none
  baseAppUsername : Option String := none
  githubLink : Option String := none
  relevantLinks : Option String := none
  baseCoreContact : Option String := none
  basename : Option String := none
  walletAddress : Option String := none
  additionalComments : Option String := none
  createdAt : Nat
deriving DecidableEq, Repr

/-- The intake form data: `Omit&lt;BaseBuilder, 'id' | 'userId' | 'createdAt'&gt;`. -/
structure BaseBuilderData where
  email : String
  fullName : String
  builderTypes : List String := []
  buildingOnBase : String
  location : String
  country : String
  baseAmbassador : String
  discordUsername : Option String := none
  telegramUsername : Option String := none
  twitterUsername : Option String := none
  baseAppUsername : Option String := none
  githubLink : Option String := none
  relevantLinks : Option String := none
  baseCoreContact : Option String := none
  basename : Option String := none
  walletAddress : Option String := none
  additionalComments : Option String := none
deriving DecidableEq, Repr

/-- The PostgreSQL state: both tables as rows in insertion order.
`contacts.id` and `base_builders.id` are declared PRIMARY KEY. -/
structure Database where
  contacts : List Contact := []
  baseBuilders : List BaseBuilder := []
deriving DecidableEq, Repr

/-- Error kinds the embedded operations can surface. These mirror the
failures the source code can actually produce (thrown `Error`s and the
PostgreSQL unique-key violation); the source has no AlreadyExists or
ValidationFailed path. -/
inductive StorageError where
  /-- PostgreSQL rejects an INSERT whose id collides with the PRIMARY KEY. -/
  | duplicateKey : StorageError
  /-- `verifyDataIntegrity`: `Data not found in PostgreSQL`. -/
  | dataNotFound : StorageError
  /-- `verifyDataIntegrity`: hash not found in GolemDB after the given
  number of attempts. -/
  | hashNotFound : Nat → StorageError
  /-- `uploadImageToIPFS`: Pinata not initialized (no PINATA_JWT). -/
  | pinataNotInitialized : StorageError
  /-- An upload error rethrown by `uploadImageToIPFS`, with its message. -/
  | uploadError : String → StorageError
deriving DecidableEq, Repr

/-! ### DatabaseContactManager (src/database.ts lines 165-398) -/

namespace DatabaseContactManager

/-- `addContact` (src/database.ts lines 167-224): builds the row — id is
`Date.now().toString()`, `name` is `contactData.name || 'Unknown'` (JS `||`,
so an empty string also falls back), defaults for tags/priority/facial —
and INSERTs it; the PRIMARY KEY on `contacts.id` makes the insert fail when
any existing row has the same id. -/
def addContact (db : Database) (userId : String) (contactData : ContactData)
    (now : Nat) : Except StorageError (Contact × Database) :=
  let newId := Nat.repr now
  let contact : Contact :=
    { id := newId
      userId := userId
      name := match contactData.name with
        | some s => if s = "" then "Unknown" else s
        | none => "Unknown"
      position := contactData.position
      company := contactData.company
      email := contactData.email
      phone := contactData.phone
      linkedin := contactData.linkedin
      github := contactData.github
      telegram := contactData.telegram
      lens := contactData.lens
      farcaster := contactData.farcaster
      ens := contactData.ens
      location := contactData.location
      goal := contactData.goal
      notes := contactData.notes
      tags := contactData.tags.getD []
      priority := contactData.priority.getD .medium
      createdAt := now
      source := contactData.source
      photoPath := contactData.photoPath
      photoFileId := contactData.photoFileId
      photoTakenAt := contactData.photoTakenAt
      hasFacialData := contactData.hasFacialData.getD false }
  if db.contacts.any (fun c => c.id = newId) then
    .error .duplicateKey
  else
    .ok (contact, { db with contacts := db.contacts ++ [contact] })

/-- `getUserContacts` (src/database.ts lines 227-239):
`SELECT * FROM contacts WHERE user_id = $1 ORDER BY created_at DESC`. -/
def getUserContacts (db : Database) (userId : String) : List Contact :=
  List.insertionSort (fun a b => b.createdAt ≤ a.createdAt)
    (db.contacts.filter (fun c => c.userId = userId))

/-- `nee` is an initial segment of `hay`. -/
def leadEq : List Char → List Char → Bool
  | [], _ => true
  | _ :: _, [] => false
  | a :: as, b :: bs => a = b && leadEq as bs

/-- `nee` occurs as a contiguous sublist of `hay`. -/
def subSearch (nee : List Char) : List Char → Bool
  | [] => nee.isEmpty
  | a :: t => leadEq nee (a :: t) || subSearch nee t

/-- Lower-casing one character (ASCII range, as the relevant inputs are). -/
def lowerChar (c : Char) : Char :=
  if 65 ≤ c.toNat && c.toNat ≤ 90 then Char.ofNat (c.toNat + 32) else c

def lowerList (l : List Char) : List Char := l.map lowerChar

/-- SQL `LOWER(x) LIKE LOWER('%q%')` on a nullable column: a NULL column
never matches; otherwise case-insensitive substring containment. -/
def likeMatch (col : Option String) (q : String) : Bool :=
  match col with
  | none => false
  | some s => subSearch (lowerList q.data) (lowerList s.data)

/-- The search predicate of `searchContacts` (src/database.ts lines
245-260): any of the nine columns or any tag contains the query,
case-insensitively. -/
def searchPred (q : String) (c : Contact) : Bool :=
  likeMatch (some c.name) q || likeMatch c.company q || likeMatch c.position q ||
  likeMatch c.email q || likeMatch c.linkedin q || likeMatch c.github q ||
  likeMatch c.telegram q || likeMatch c.location q || likeMatch c.source q ||
  c.tags.any (fun t => likeMatch (some t) q)

/-- `searchContacts` (src/database.ts lines 242-271). -/
def searchContacts (db : Database) (userId : String) (q : String) : List Contact :=
  List.insertionSort (fun a b => b.createdAt ≤ a.createdAt)
    (db.contacts.filter (fun c => c.userId = userId && searchPred q c))

/-- `deleteContact` (src/database.ts lines 274-286):
`DELETE FROM contacts WHERE user_id = $1 AND id = $2`, returning
`rowCount > 0` and the new table state. -/
def deleteContact (db : Database) (userId : String) (contactId : String) :
    Bool × Database :=
  let keep := db.contacts.filter (fun c => !(c.userId = userId && c.id = contactId))
  (keep.length < db.contacts.length, { db with contacts := keep })

/-- The photo columns written by `addPhotoToContact`. -/
structure PhotoData where
  photoPath : Option String := none
  photoFileId : Option String := none
  photoTakenAt : Option Nat := none
  hasFacialData : Option Bool := none
deriving DecidableEq, Repr

/-- `addPhotoToContact` (src/database.ts lines 318-348): `UPDATE contacts
SET photo_path, photo_file_id, photo_taken_at, has_facial_data WHERE
user_id AND id`; `photoTakenAt` falls back to `new Date()` and
`hasFacialData` to false. Returns `rowCount > 0`. -/
def addPhotoToContact (db : Database) (userId : String) (contactId : String)
    (photoData : PhotoData) (now : Nat) : Bool × Database :=
  let hit := fun (c : Contact) => c.userId = userId && c.id = contactId
  let upd := fun (c : Contact) =>
    if hit c then
      { c with
        photoPath := photoData.photoPath
        photoFileId := photoData.photoFileId
        photoTakenAt := some (photoData.photoTakenAt.getD now)
        hasFacialData := photoData.hasFacialData.getD false }
    else c
  (db.contacts.any hit, { db with contacts := db.contacts.map upd })

end DatabaseContactManager

/-! ### BaseBuilderManager (src/database.ts lines 401-479) -/

namespace BaseBuilderManager

/-- `createBaseBuilder` (src/database.ts lines 403-437): id is
`bb_&lt;Date.now()&gt;_&lt;random&gt;`; plain INSERT — there is no per-owner
uniqueness check anywhere in it, only the PRIMARY KEY on `id`. -/
def createBaseBuilder (db : Database) (userId : String)
    (builderData : BaseBuilderData) (now : Nat) (rand : String) :
    Except StorageError (BaseBuilder × Database) :=
  let newId := "bb_" ++ Nat.repr now ++ "_" ++ rand
  let builder : BaseBuilder :=
    { id := newId
      userId := userId
      email := builderData.email
      fullName := builderData.fullName
      builderTypes := builderData.builderTypes
      buildingOnBase := builderData.buildingOnBase
      location := builderData.location
      country := builderData.country
      baseAmbassador := builderData.baseAmbassador
      discordUsername := builderData.discordUsername
      telegramUsername := builderData.telegramUsername
      twitterUsername := builderData.twitterUsername
      baseAppUsername := builderData.baseAppUsername
      githubLink := builderData.githubLink
      relevantLinks := builderData.relevantLinks
      baseCoreContact := builderData.baseCoreContact
      basename := builderData.basename
      walletAddress := builderData.walletAddress
      additionalComments := builderData.additionalComments
      createdAt := now }
  if db.baseBuilders.any (fun b => b.id = newId) then
    .error .duplicateKey
  else
    .ok (builder, { db with baseBuilders := db.baseBuilders ++ [builder] })

/-- `getBaseBuilderByUserId` (src/database.ts lines 440-452):
`SELECT * FROM base_builders WHERE user_id = $1`, then `rows[0]` or null. -/
def getBaseBuilderByUserId (db : Database) (userId : String) : Option BaseBuilder :=
  (db.baseBuilders.filter (fun b => b.userId = userId)).head?

end BaseBuilderManager

/-! ### The GolemDB hash ledger and the Pinata adapter (src/hybrid-storage.ts) -/

/-- The `dataType` field of the `DataHash` interface
(src/hybrid-storage.ts lines 21-30): exactly three kinds exist —
there is no tombstone kind. -/
inductive DataType where
  | contact | base_builder | image
deriving DecidableEq, Repr

/-- The `DataHash` interface (src/hybrid-storage.ts lines 21-30). -/
structure DataHash where
  id : String
  dataType : DataType
  originalId : String
  userId : String
  sha256Hash : String
  ipfsHash : Option String := none
  createdAt : Nat
  verified : Bool
deriving DecidableEq, Repr

/-- The combined state of the orchestrator's backends: the PostgreSQL
database and the append-only GolemDB ledger of `DataHash` entities. -/
structure HybridState where
  db : Database := {}
  ledger : List DataHash := []
deriving DecidableEq, Repr

/-- `storeHashInGolem` (src/hybrid-storage.ts lines 114-139): append-only. -/
def storeHashInGolem (ledger : List DataHash) (h : DataHash) : List DataHash :=
  ledger ++ [h]

/-- The GolemDB query
`type = "data_hash" && dataType = d && userId = u && originalId = i`
over the ledger (every stored entity carries `type = "data_hash"`). -/
def golemQuery (ledger : List DataHash) (dt : DataType) (userId originalId : String) :
    List DataHash :=
  ledger.filter (fun h => h.dataType = dt && h.userId = userId && h.originalId = originalId)

/-- `String.prototype.includes` (case-sensitive). -/
def strIncludes (s sub : String) : Bool :=
  DatabaseContactManager.subSearch sub.data s.data

structure UploadOk where
  cid : String
  size : Nat
deriving DecidableEq, Repr

structure IPFSUploadResult where
  ipfsHash : String
  pinataUrl : String
  size : Nat
deriving DecidableEq, Repr

/-- `uploadImageToIPFS` (src/hybrid-storage.ts lines 142-187).
`pinataConfigured` is whether PINATA_JWT was present at initialization;
`outcome` is the result of `pinata.upload.public.file`; on an auth or
zero-size failure the code substitutes a mock IPFS hash
`Qm&lt;random&gt;` and reports success; other failures are rethrown. -/
def uploadImageToIPFS (pinataConfigured : Bool) (gateway : String)
    (outcome : Except String UploadOk) (imageBuffer : List Nat) (mockRand : String) :
    Except StorageError IPFSUploadResult :=
  if !pinataConfigured then .error .pinataNotInitialized
  else
    match outcome with
    | .ok r =>
        .ok { ipfsHash := r.cid
              pinataUrl := "https://" ++ gateway ++ "/ipfs/" ++ r.cid
              size := if r.size = 0 then imageBuffer.length else r.size }
    | .error msg =>
        if strIncludes msg "Authentication failed" ||
           strIncludes msg "Not Authorized" ||
           strIncludes msg "File size must be greater than 0" then
          let mockHash := "Qm" ++ mockRand
          .ok { ipfsHash := mockHash
                pinataUrl := "https://" ++ gateway ++ "/ipfs/" ++ mockHash
                size := imageBuffer.length }
        else .error (.uploadError msg)

/-! ### JSON records hashed by the orchestrator -/

/-- A nullable SQL column as a JSON value. -/
def optJ : Option String → JVal
  | some s => .jstr s
  | none => .jnull

/-- The JSON record of a `Contact` as `mapRowToContact` returns it: object
keys in declaration order, SQL NULLs as JSON null, dates as ISO strings;
`photoTakenAt` is `undefined` (key absent) when NULL. -/
def contactToRecord (c : Contact) : List (String × JVal) :=
  [("id", .jstr c.id), ("userId", .jstr c.userId), ("name", .jstr c.name),
   ("position", optJ c.position), ("company", optJ c.company),
   ("email", optJ c.email), ("phone", optJ c.phone),
   ("linkedin", optJ c.linkedin), ("github", optJ c.github),
   ("telegram", optJ c.telegram), ("lens", optJ c.lens),
   ("farcaster", optJ c.farcaster), ("ens", optJ c.ens),
   ("location", optJ c.location), ("goal", optJ c.goal),
   ("notes", optJ c.notes), ("tags", .jarr c.tags),
   ("priority", .jstr c.priority.toStr),
   ("createdAt", .jstr (isoString c.createdAt)), ("source", optJ c.source),
   ("photoPath", optJ c.photoPath), ("photoFileId", optJ c.photoFileId)] ++
  (match c.photoTakenAt with
   | some t => [("photoTakenAt", .jstr (isoString t))]
   | none => []) ++
  [("hasFacialData", .jbool c.hasFacialData)]

/-- The JSON record of a `BaseBuilder` as `mapRowToBaseBuilder` returns it. -/
def baseBuilderToRecord (b : BaseBuilder) : List (String × JVal) :=
  [("id", .jstr b.id), ("userId", .jstr b.userId), ("email", .jstr b.email),
   ("fullName", .jstr b.fullName), ("builderTypes", .jarr b.builderTypes),
   ("buildingOnBase", .jstr b.buildingOnBase), ("location", .jstr b.location),
   ("country", .jstr b.country), ("baseAmbassador", .jstr b.baseAmbassador),
   ("discordUsername", optJ b.discordUsername),
   ("telegramUsername", optJ b.telegramUsername),
   ("twitterUsername", optJ b.twitterUsername),
   ("baseAppUsername", optJ b.baseAppUsername),
   ("githubLink", optJ b.githubLink), ("relevantLinks", optJ b.relevantLinks),
   ("baseCoreContact", optJ b.baseCoreContact), ("basename", optJ b.basename),
   ("walletAddress", optJ b.walletAddress),
   ("additionalComments", optJ b.additionalComments),
   ("createdAt", .jstr (isoString b.createdAt))]

/-- The object hashed by the deletion marker:
`{ deleted: true, contactId, timestamp: Date.now() }`. -/
def deleteMarkerRecord (contactId : String) (now : Nat) : List (String × JVal) :=
  [("deleted", .jbool true), ("contactId", .jstr contactId), ("timestamp", .jnum now)]

/-! ### HybridStorageManager (src/hybrid-storage.ts) -/

namespace HybridStorageManager

/-- `addContact` (src/hybrid-storage.ts lines 214-276): insert into
PostgreSQL; if an image buffer is supplied, upload it to IPFS, write the
photo columns, and anchor `sha256(JSON of the IPFS hash string)`; then
anchor the canonical hash of the inserted contact row. Wall clock, random
id suffixes and the Pinata outcome are explicit parameters. -/
def addContact (st : HybridState) (userId : String) (contactData : ContactData)
    (imageBuffer : Option (List Nat)) (pinataConfigured : Bool) (gateway : String)
    (outcome : Except String UploadOk) (mockRand : String) (now : Nat)
    (imgRand contactRand : String) : Except StorageError (Contact × HybridState) :=
  match DatabaseContactManager.addContact st.db userId contactData now with
  | .error e => .error e
  | .ok (contact, db1) =>
    match imageBuffer with
    | none =>
      let contactHash := generateHash (contactToRecord contact)
      let hashData : DataHash :=
        { id := "contact_" ++ Nat.repr now ++ "_" ++ contactRand
          dataType := .contact, originalId := contact.id, userId := userId
          sha256Hash := contactHash, ipfsHash := none, createdAt := now
          verified := true }
      .ok (contact, { db := db1, ledger := storeHashInGolem st.ledger hashData })
    | some buf =>
      match uploadImageToIPFS pinataConfigured gateway outcome buf mockRand with
      | .error e => .error e
      | .ok ipfsResult =>
        let upd := DatabaseContactManager.addPhotoToContact db1 userId contact.id
          { photoPath := some ipfsResult.pinataUrl
            photoFileId := some ipfsResult.ipfsHash
            photoTakenAt := some now
            hasFacialData := some false } now
        let db2 := upd.2
        let ipfsHashData : DataHash :=
          { id := "img_" ++ Nat.repr now ++ "_" ++ imgRand
            dataType := .image, originalId := contact.id, userId := userId
            sha256Hash := generateHashOfString ipfsResult.ipfsHash
            ipfsHash := some ipfsResult.ipfsHash, createdAt := now
            verified := true }
        let ledger1 := storeHashInGolem st.ledger ipfsHashData
        let contactHash := generateHash (contactToRecord contact)
        let hashData : DataHash :=
          { id := "contact_" ++ Nat.repr now ++ "_" ++ contactRand
            dataType := .contact, originalId := contact.id, userId := userId
            sha256Hash := contactHash, ipfsHash := some ipfsResult.ipfsHash
            createdAt := now, verified := true }
        .ok (contact, { db := db2, ledger := storeHashInGolem ledger1 hashData })

/-- `addBaseBuilder` (src/hybrid-storage.ts lines 279-308): a plain
`createBaseBuilder` insert followed by anchoring — it performs no check
that the owner already has an application. -/
def addBaseBuilder (st : HybridState) (userId : String)
    (builderData : BaseBuilderData) (now : Nat) (rand hashRand : String) :
    Except StorageError (BaseBuilder × HybridState) :=
  match BaseBuilderManager.createBaseBuilder st.db userId builderData now rand with
  | .error e => .error e
  | .ok (builder, db1) =>
    let builderHash := generateHash (baseBuilderToRecord builder)
    let hashData : DataHash :=
      { id := "builder_" ++ Nat.repr now ++ "_" ++ hashRand
        dataType := .base_builder, originalId := builder.id, userId := userId
        sha256Hash := builderHash, ipfsHash := none, createdAt := now
        verified := true }
    .ok (builder, { db := db1, ledger := storeHashInGolem st.ledger hashData })

/-- The `dataType` argument of `verifyDataIntegrity` is restricted to
`'contact' | 'base_builder'` in the source signature. -/
inductive VerifyKind where
  | contact | base_builder
deriving DecidableEq, Repr

def VerifyKind.toDataType : VerifyKind → DataType
  | .contact => .contact
  | .base_builder => .base_builder

/-- Step 1 of `verifyDataIntegrity` (src/hybrid-storage.ts lines 315-322):
for contacts, look the id up among the owner's contacts; for
base builders, fetch by owner alone — `originalId` is not consulted. -/
def verifyCurrentRecord (st : HybridState) (userId : String) :
    VerifyKind → String → Option (List (String × JVal))
  | .contact, originalId =>
      ((DatabaseContactManager.getUserContacts st.db userId).find?
        (fun c => c.id = originalId)).map contactToRecord
  | .base_builder, _ =>
      (BaseBuilderManager.getBaseBuilderByUserId st.db userId).map baseBuilderToRecord

/-- Steps 1-2 of `verifyDataIntegrity`: fail with not-found when the
relational record is absent, else the recomputed canonical hash. -/
def verifyCurrentHash (st : HybridState) (userId : String) (k : VerifyKind)
    (originalId : String) : Except StorageError String :=
  match verifyCurrentRecord st userId k originalId with
  | none => .error .dataNotFound
  | some r => .ok (generateHash r)

/-- `const maxAttempts = 3` (src/hybrid-storage.ts line 336). -/
def golemMaxAttempts : Nat := 3

/-- The fixed retry delay, `setTimeout(..., 2000)`. -/
def golemRetryDelayMs : Nat := 2000

structure RetryOutcome where
  attempts : Nat
  results : List DataHash
  waitedMs : Nat
deriving DecidableEq, Repr

/-- The retry loop of `verifyDataIntegrity` (src/hybrid-storage.ts lines
334-348): `while (results.length === 0 && attempts &lt; maxAttempts)`
re-query, sleeping 2000 ms between an empty result and a further attempt.
`probe i` is what GolemDB returns on the `i`-th query (indexing may lag);
fuel `golemMaxAttempts` is enough because each iteration increments
`attempts`, which the guard bounds by `golemMaxAttempts`. -/
def retryLoopGo (probe : Nat → List DataHash) :
    Nat → Nat → List DataHash → Nat → RetryOutcome
  | 0, attempts, results, waited => ⟨attempts, results, waited⟩
  | fuel + 1, attempts, results, waited =>
    if results.isEmpty && attempts < golemMaxAttempts then
      let attempts2 := attempts + 1
      let results2 := probe attempts2
      let waited2 :=
        if results2.isEmpty && attempts2 < golemMaxAttempts then
          waited + golemRetryDelayMs
        else waited
      retryLoopGo probe fuel attempts2 results2 waited2
    else ⟨attempts, results, waited⟩

/-- Run the bounded retry loop from its initial state. -/
def golemQueryWithRetry (probe : Nat → List DataHash) : RetryOutcome :=
  retryLoopGo probe golemMaxAttempts 0 [] 0

structure VerifyResult where
  isValid : Bool
  storedHash : String
  currentHash : String
deriving DecidableEq, Repr

/-- Steps 3-4 of `verifyDataIntegrity` after the retry loop
(src/hybrid-storage.ts lines 350-364): fail when no results came back,
else compare byte-for-byte against `results[0]`. -/
def verifyAgainstResults (currentHash : String) (results : List DataHash) :
    Except StorageError VerifyResult :=
  match results with
  | [] => .error (.hashNotFound golemMaxAttempts)
  | stored :: _ =>
    .ok { isValid := currentHash == stored.sha256Hash
          storedHash := stored.sha256Hash
          currentHash := currentHash }

/-- `verifyDataIntegrity` (src/hybrid-storage.ts lines 311-370): relational
read (owner-scoped), canonical re-hash, ledger query with bounded retry
(the in-model ledger answers every attempt identically), then byte-for-byte
hash comparison against `results[0]`. -/
def verifyDataIntegrity (st : HybridState) (userId : String) (k : VerifyKind)
    (originalId : String) : Except StorageError VerifyResult :=
  match verifyCurrentHash st userId k originalId with
  | .error e => .error e
  | .ok currentHash =>
    verifyAgainstResults currentHash
      (golemQueryWithRetry
        (fun _ => golemQuery st.ledger k.toDataType userId originalId)).results

/-- `getUserContacts` (src/hybrid-storage.ts lines 373-376). -/
def getUserContacts (st : HybridState) (userId : String) : List Contact :=
  DatabaseContactManager.getUserContacts st.db userId

/-- `searchContacts` (src/hybrid-storage.ts lines 379-382). -/
def searchContacts (st : HybridState) (userId : String) (q : String) : List Contact :=
  DatabaseContactManager.searchContacts st.db userId q

/-- `getBaseBuilderByUserId` (src/hybrid-storage.ts lines 423-426). -/
def getBaseBuilderByUserId (st : HybridState) (userId : String) : Option BaseBuilder :=
  BaseBuilderManager.getBaseBuilderByUserId st.db userId

/-- The deletion-marker `DataHash` that `deleteContact` appends: its
`dataType` is `contact` (the `DataHash` interface has no tombstone kind),
its id carries a `delete_` text marker, and its digest covers
`{ deleted: true, contactId, timestamp }`. -/
def deletionMarker (userId contactId : String) (now : Nat) (rand : String) : DataHash :=
  { id := "delete_" ++ Nat.repr now ++ "_" ++ rand
    dataType := .contact, originalId := contactId, userId := userId
    sha256Hash := generateHash (deleteMarkerRecord contactId now)
    ipfsHash := none, createdAt := now, verified := true }

/-- `deleteContact` (src/hybrid-storage.ts lines 385-414): relational
delete; when it deleted something, append the deletion-marker `DataHash`. -/
def deleteContact (st : HybridState) (userId contactId : String) (now : Nat)
    (rand : String) : Bool × HybridState :=
  let del := DatabaseContactManager.deleteContact st.db userId contactId
  if del.1 then
    (true, { db := del.2, ledger := storeHashInGolem st.ledger (deletionMarker userId contactId now rand) })
  else (false, { db := del.2, ledger := st.ledger })

/-- `addPhotoToContact` (src/hybrid-storage.ts lines 429-469): upload to
IPFS, write the photo columns, and on a successful column update anchor the
image hash. An upload failure aborts before any relational write — but the
auth/zero-size mock path inside `uploadImageToIPFS` reports success. -/
def addPhotoToContact (st : HybridState) (userId contactId : String)
    (imageBuffer : List Nat) (pinataConfigured : Bool) (gateway : String)
    (outcome : Except String UploadOk) (mockRand : String) (now : Nat)
    (rand : String) : Except StorageError (Bool × HybridState) :=
  match uploadImageToIPFS pinataConfigured gateway outcome imageBuffer mockRand with
  | .error e => .error e
  | .ok ipfsResult =>
    let upd := DatabaseContactManager.addPhotoToContact st.db userId contactId
      { photoPath := some ipfsResult.pinataUrl
        photoFileId := some ipfsResult.ipfsHash
        photoTakenAt := some now
        hasFacialData := some false } now
    if upd.1 then
      let ipfsHashData : DataHash :=
        { id := "img_" ++ Nat.repr now ++ "_" ++ rand
          dataType := .image, originalId := contactId, userId := userId
          sha256Hash := generateHashOfString ipfsResult.ipfsHash
          ipfsHash := some ipfsResult.ipfsHash, createdAt := now
          verified := true }
      .ok (true, { db := upd.2, ledger := storeHashInGolem st.ledger ipfsHashData })
    else .ok (false, { db := upd.2, ledger := st.ledger })

end HybridStorageManager

/-! ### Concrete fixtures used by witnesses and counterexamples -/

def contactFixture : Contact :=
  { id := "1", userId := "u1", name := "N", createdAt := 0 }

def stWithContact : HybridState := { db := { contacts := [contactFixture] } }

def builderFixture : BaseBuilder :=
  { id := "bb_10_r1", userId := "u2", email := "e", fullName := "F",
    buildingOnBase := "Yes", location := "L", country := "C",
    baseAmbassador := "No", createdAt := 10 }

def builderDataFixture : BaseBuilderData :=
  { email := "e2", fullName := "F2", buildingOnBase := "Yes",
    location := "L2", country := "C2", baseAmbassador := "No" }

def stWithBuilder : HybridState := { db := { baseBuilders := [builderFixture] } }

/-! ## Proofs -/

theorem charToNat_inj {a b : Char} (h : a.toNat = b.toNat) : a = b :=
  Char.eq_of_val_eq (UInt32.ext h)

theorem strDataInj {a b : String} (h : a.data = b.data) : a = b := by
  cases a; cases b; exact congrArg String.mk h

theorem charListLe_total : ∀ a b : List Char, charListLe a b = true ∨ charListLe b a = true
  | [], _ => .inl rfl
  | _ :: _, [] => .inr rfl
  | a :: as, b :: bs => by
    by_cases h1 : a.toNat < b.toNat
    · left; simp [charListLe, h1]
    · by_cases h2 : b.toNat < a.toNat
      · right; simp [charListLe, h2]
      · rcases charListLe_total as bs with h | h
        · left; simp [charListLe, h1, h2, h]
        · right; simp [charListLe, h1, h2, h]

theorem charListLe_trans :
    ∀ a b c : List Char, charListLe a b = true → charListLe b c = true →
      charListLe a c = true
  | [], _, _, _, _ => rfl
  | _ :: _, [], _, h, _ => by simp [charListLe] at h
  | _ :: _, _ :: _, [], _, h => by simp [charListLe] at h
  | a :: as, b :: bs, c :: cs, h1, h2 => by
    simp only [charListLe] at h1 h2 ⊢
    by_cases hab : a.toNat < b.toNat
    · by_cases hbc : b.toNat < c.toNat
      · rw [if_pos (by omega)]
      · by_cases hcb : c.toNat < b.toNat
        · rw [if_neg hbc, if_pos hcb] at h2
          exact absurd h2 (by simp)
        · rw [if_pos (by omega)]
    · by_cases hba : b.toNat < a.toNat
      · rw [if_neg hab, if_pos hba] at h1
        exact absurd h1 (by simp)
      · rw [if_neg hab, if_neg hba] at h1
        by_cases hbc : b.toNat < c.toNat
        · rw [if_pos (by omega)]
        · by_cases hcb : c.toNat < b.toNat
          · rw [if_neg hbc, if_pos hcb] at h2
            exact absurd h2 (by simp)
          · rw [if_neg hbc, if_neg hcb] at h2
            rw [if_neg (by omega), if_neg (by omega)]
            exact charListLe_trans as bs cs h1 h2

theorem charListLe_antisymm :
    ∀ a b : List Char, charListLe a b = true → charListLe b a = true → a = b
  | [], [], _, _ => rfl
  | [], _ :: _, _, h => by simp [charListLe] at h
  | _ :: _, [], h, _ => by simp [charListLe] at h
  | a :: as, b :: bs, h1, h2 => by
    simp only [charListLe] at h1 h2
    by_cases hab : a.toNat < b.toNat
    · rw [if_neg (by omega), if_pos hab] at h2
      exact absurd h2 (by simp)
    · by_cases hba : b.toNat < a.toNat
      · rw [if_neg hab, if_pos hba] at h1
        exact absurd h1 (by simp)
      · rw [if_neg hab, if_neg hba] at h1
        rw [if_neg hba, if_neg hab] at h2
        have hc : a = b := charToNat_inj (by omega)
        subst hc
        rw [charListLe_antisymm as bs h1 h2]

theorem keyLe_total (a b : String) : keyLe a b ∨ keyLe b a :=
  charListLe_total a.data b.data

theorem keyLe_trans {a b c : String} (h1 : keyLe a b) (h2 : keyLe b c) : keyLe a c :=
  charListLe_trans a.data b.data c.data h1 h2

theorem keyLe_antisymm {a b : String} (h1 : keyLe a b) (h2 : keyLe b a) : a = b :=
  strDataInj (charListLe_antisymm a.data b.data h1 h2)

/-- `find?` by key is invariant under permutation when keys are distinct. -/
theorem find?_key_perm {r1 r2 : List (String × JVal)} (hp : r1.Perm r2) :
    ∀ k : String, (r1.map Prod.fst).Nodup →
      r1.find? (fun p => p.1 = k) = r2.find? (fun p => p.1 = k) := by
  induction hp with
  | nil => intro k _; rfl
  | cons x hp ih =>
    intro k hnd
    rw [List.map_cons, List.nodup_cons] at hnd
    by_cases hx : x.1 = k
    · rw [List.find?_cons_of_pos _ (by simpa using hx),
        List.find?_cons_of_pos _ (by simpa using hx)]
    · rw [List.find?_cons_of_neg _ (by simpa using hx),
        List.find?_cons_of_neg _ (by simpa using hx)]
      exact ih k hnd.2
  | swap x y t =>
    intro k hnd
    simp only [List.map_cons, List.nodup_cons, List.mem_cons, not_or] at hnd
    by_cases hy : y.1 = k <;> by_cases hx : x.1 = k
    · exact absurd (hy.trans hx.symm) hnd.1.1
    · rw [List.find?_cons_of_pos _ (by simpa using hy),
        List.find?_cons_of_neg _ (by simpa using hx),
        List.find?_cons_of_pos _ (by simpa using hy)]
    · rw [List.find?_cons_of_neg _ (by simpa using hy),
        List.find?_cons_of_pos _ (by simpa using hx),
        List.find?_cons_of_pos _ (by simpa using hx)]
    · rw [List.find?_cons_of_neg _ (by simpa using hy),
        List.find?_cons_of_neg _ (by simpa using hx),
        List.find?_cons_of_neg _ (by simpa using hx),
        List.find?_cons_of_neg _ (by simpa using hy)]
  | trans hp1 hp2 ih1 ih2 =>
    intro k hnd
    rw [ih1 k hnd, ih2 k (((hp1.map Prod.fst).nodup_iff).mp hnd)]

theorem lookupKey_perm {r1 r2 : List (String × JVal)} (hp : r1.Perm r2)
    (hnd : (r1.map Prod.fst).Nodup) (k : String) :
    lookupKey r1 k = lookupKey r2 k := by
  unfold lookupKey
  rw [find?_key_perm hp k hnd]

theorem sortedKeys_perm {r1 r2 : List (String × JVal)} (hp : r1.Perm r2) :
    sortedKeys r1 = sortedKeys r2 := by
  letI : IsTotal String keyLe := ⟨keyLe_total⟩
  letI : IsTrans String keyLe := ⟨fun _ _ _ => keyLe_trans⟩
  letI : IsAntisymm String keyLe := ⟨fun _ _ => keyLe_antisymm⟩
  exact List.eq_of_perm_of_sorted
    ((List.perm_insertionSort keyLe _).trans
      ((hp.map Prod.fst).trans (List.perm_insertionSort keyLe _).symm))
    (List.sorted_insertionSort keyLe _) (List.sorted_insertionSort keyLe _)

theorem stringifySorted_perm {r1 r2 : List (String × JVal)} (hp : r1.Perm r2)
    (hnd : (r1.map Prod.fst).Nodup) :
    stringifySorted r1 = stringifySorted r2 := by
  unfold stringifySorted
  rw [sortedKeys_perm hp]
  have hfun :
      (fun k => (lookupKey r1 k).map (fun v => jquote k ++ ":" ++ jvalStr v)) =
      (fun k => (lookupKey r2 k).map (fun v => jquote k ++ ":" ++ jvalStr v)) := by
    funext k
    rw [lookupKey_perm hp hnd k]
  rw [hfun]

/-- C3. Canonicalization idempotence: `generateHash` serializes the record
in sorted key order, so two records with the same key/value pairs in any
insertion orders (keys distinct) produce the same hex digest string. -/
theorem generateHash_canonical (r1 r2 : List (String × JVal))
    (hnd : (r1.map Prod.fst).Nodup) (hp : r1.Perm r2) :
    generateHash r1 = generateHash r2 := by
  unfold generateHash
  rw [stringifySorted_perm hp hnd]

/-- Witness for C3 at a concrete pair of records differing in insertion
order. -/
theorem generateHash_canonical_witness :
    ([("b", JVal.jnum 2), ("a", JVal.jstr "x")].map Prod.fst).Nodup ∧
    [("b", JVal.jnum 2), ("a", JVal.jstr "x")].Perm
      [("a", JVal.jstr "x"), ("b", JVal.jnum 2)] ∧
    generateHash [("b", JVal.jnum 2), ("a", JVal.jstr "x")] =
      generateHash [("a", JVal.jstr "x"), ("b", JVal.jnum 2)] :=
  ⟨by decide, by decide,
    generateHash_canonical _ _ (by decide) (by decide)⟩

/-! ### C4: owner isolation -/

theorem mem_getUserContacts {st : HybridState} {u : String} {c : Contact}
    (hc : c ∈ HybridStorageManager.getUserContacts st u) :
    c ∈ st.db.contacts ∧ c.userId = u := by
  unfold HybridStorageManager.getUserContacts DatabaseContactManager.getUserContacts at hc
  have hm := (List.perm_insertionSort _ _).subset hc
  rw [List.mem_filter] at hm
  exact ⟨hm.1, of_decide_eq_true hm.2⟩

theorem mem_searchContacts {st : HybridState} {u q : String} {c : Contact}
    (hc : c ∈ HybridStorageManager.searchContacts st u q) :
    c ∈ st.db.contacts ∧ c.userId = u := by
  unfold HybridStorageManager.searchContacts DatabaseContactManager.searchContacts at hc
  have hm := (List.perm_insertionSort _ _).subset hc
  rw [List.mem_filter] at hm
  refine ⟨hm.1, ?_⟩
  have := hm.2
  simp only [Bool.and_eq_true, decide_eq_true_eq] at this
  exact this.1

/-- C4. Owner isolation: the contacts `getUserContacts` and `searchContacts`
return for one owner, the record `verifyDataIntegrity` inspects, and the
rows `deleteContact` can remove, all carry that owner's id — so another
owner's contacts are never visible or touched, even when contact ids
collide across owners. -/
theorem owner_isolation (st : HybridState) (u1 u2 : String) (hne : u1 ≠ u2) :
    (∀ c ∈ HybridStorageManager.getUserContacts st u1, c.userId ≠ u2) ∧
    (∀ q : String, ∀ c ∈ HybridStorageManager.searchContacts st u1 q, c.userId ≠ u2) ∧
    (∀ cid now rand c, c ∈ st.db.contacts → c.userId = u2 →
      c ∈ ((HybridStorageManager.deleteContact st u1 cid now rand).2).db.contacts) ∧
    (∀ oid r, HybridStorageManager.verifyCurrentRecord st u1 .contact oid = some r →
      ∃ c, c ∈ st.db.contacts ∧ c.userId = u1 ∧ c.id = oid ∧ r = contactToRecord c) := by
  refine ⟨?_, ?_, ?_, ?_⟩
  · intro c hc
    rw [(mem_getUserContacts hc).2]
    exact hne
  · intro q c hc
    rw [(mem_searchContacts hc).2]
    exact hne
  · intro cid now rand c hc hu2
    have huser : c.userId ≠ u1 := fun h => hne (h ▸ hu2)
    have hmem : c ∈ List.filter
        (fun c => !(decide (c.userId = u1) && decide (c.id = cid))) st.db.contacts :=
      List.mem_filter.mpr ⟨hc, by simp [huser]⟩
    simp only [HybridStorageManager.deleteContact, DatabaseContactManager.deleteContact]
    split <;> exact hmem
  · intro oid r hr
    unfold HybridStorageManager.verifyCurrentRecord at hr
    rw [Option.map_eq_some'] at hr
    obtain ⟨c, hfind, hrec⟩ := hr
    have hmem := List.mem_of_find?_eq_some hfind
    have hid := List.find?_some hfind
    obtain ⟨hdb, hu⟩ := mem_getUserContacts hmem
    exact ⟨c, hdb, hu, of_decide_eq_true hid, hrec.symm⟩

/-- Witness for C4 at a concrete state holding contacts of two owners with
the same contact id. -/
theorem owner_isolation_witness :
    ("u1" : String) ≠ "u2" ∧
    (∀ c ∈ HybridStorageManager.getUserContacts
      { db := { contacts := [{ id := "7", userId := "u1", name := "A", createdAt := 1 },
                            { id := "7", userId := "u2", name := "B", createdAt := 2 }] } }
      "u1", c.userId ≠ "u2") :=
  ⟨by decide,
    (owner_isolation
      { db := { contacts := [{ id := "7", userId := "u1", name := "A", createdAt := 1 },
                            { id := "7", userId := "u2", name := "B", createdAt := 2 }] } }
      "u1" "u2" (by decide)).1⟩

/-! ### C5: missing name is defaulted, not rejected -/

/-- Counterexample to C5 as stated: `addContact` with no name field
succeeds and stores a contact named `Unknown` — there is no
ValidationFailed failure. -/
theorem addContact_missing_name_counterexample :
    (DatabaseContactManager.addContact {} "u1" { company := some "X" } 5).toOption.map
      (fun p => (p.1.name, p.2.contacts.length)) = some ("Unknown", 1) := by decide

/-- C5 (amended): `addContact` never validates the name — a missing name is
replaced by the literal `Unknown` and the contact is stored; the only
failure the insert can produce is a primary-key collision. -/
theorem addContact_defaults_missing_name (db : Database) (u : String)
    (d : ContactData) (now : Nat) (hname : d.name = none)
    (hfree : (db.contacts.any (fun c => c.id = Nat.repr now)) = false) :
    (DatabaseContactManager.addContact db u d now).toOption.map
        (fun p => p.1.name) = some "Unknown" ∧
    (∀ db2 u2 d2 now2 e,
      DatabaseContactManager.addContact db2 u2 d2 now2 = .error e →
        e = .duplicateKey) := by
  constructor
  · simp only [DatabaseContactManager.addContact, hname]
    rw [if_neg]
    · rfl
    · simp only [hfree]
      exact fun h => nomatch h
  · intro db2 u2 d2 now2 e h
    simp only [DatabaseContactManager.addContact] at h
    by_cases hc : (db2.contacts.any fun c => c.id = Nat.repr now2) = true
    · rw [if_pos hc] at h
      cases h
      rfl
    · rw [if_neg hc] at h
      cases h

/-- Witness for C5 (amended) at the empty database. -/
theorem addContact_defaults_missing_name_witness :
    (({} : ContactData).name = none) ∧
    (DatabaseContactManager.addContact {} "u1" {} 5).toOption.map
      (fun p => p.1.name) = some "Unknown" :=
  ⟨by decide,
    (addContact_defaults_missing_name {} "u1" {} 5 (by decide) (by decide)).1⟩

/-! ### C9: ids are wall-clock milliseconds -/

/-- C9. The id assigned by `addContact` is exactly `Date.now().toString()`;
a second insert in the same millisecond therefore reuses the id and is
rejected by the contacts PRIMARY KEY — for any owner, so ids are neither
owner-scoped nor random. -/
theorem addContact_id_is_timestamp (db : Database) (u : String) (d : ContactData)
    (now : Nat) (c : Contact) (db2 : Database)
    (h : DatabaseContactManager.addContact db u d now = .ok (c, db2)) :
    c.id = Nat.repr now ∧
    (∀ u2 d2, DatabaseContactManager.addContact db2 u2 d2 now = .error .duplicateKey) := by
  simp only [DatabaseContactManager.addContact] at h
  by_cases hfree : (db.contacts.any fun c => c.id = Nat.repr now) = true
  · rw [if_pos hfree] at h
    cases h
  · rw [if_neg hfree] at h
    rw [Except.ok.injEq, Prod.mk.injEq] at h
    obtain ⟨hc, hdb2⟩ := h
    constructor
    · rw [← hc]
    · intro u2 d2
      simp only [DatabaseContactManager.addContact]
      rw [if_pos]
      rw [← hdb2]
      simp only [List.any_append, List.any_cons, List.any_nil, Bool.or_eq_true]
      right
      left
      simp

/-- Witness for C9: a concrete insert at millisecond 5 yields id `5` and a
same-millisecond insert for a different owner collides. -/
theorem addContact_id_is_timestamp_witness :
    (DatabaseContactManager.addContact {} "u1" {} 5 =
      .ok ({ id := "5", userId := "u1", name := "Unknown", createdAt := 5 },
           { contacts := [{ id := "5", userId := "u1", name := "Unknown", createdAt := 5 }] })) ∧
    ({ id := "5", userId := "u1", name := "Unknown", createdAt := 5 } : Contact).id =
      Nat.repr 5 ∧
    (∀ u2 d2, DatabaseContactManager.addContact
      { contacts := [{ id := "5", userId := "u1", name := "Unknown", createdAt := 5 }] }
      u2 d2 5 = .error .duplicateKey) :=
  ⟨rfl,
    (addContact_id_is_timestamp {} "u1" {} 5
      { id := "5", userId := "u1", name := "Unknown", createdAt := 5 }
      { contacts := [{ id := "5", userId := "u1", name := "Unknown", createdAt := 5 }] }
      rfl).1,
    (addContact_id_is_timestamp {} "u1" {} 5
      { id := "5", userId := "u1", name := "Unknown", createdAt := 5 }
      { contacts := [{ id := "5", userId := "u1", name := "Unknown", createdAt := 5 }] }
      rfl).2⟩

/-! ### C6: the deletion marker -/

/-- Counterexample to C6 as stated: the record appended on a successful
delete has data-kind `contact` — the `DataHash` interface has no tombstone
kind at all — with a `delete_` prefix only inside its generated id. -/
theorem deleteContact_marker_kind_counterexample :
    (HybridStorageManager.deleteContact stWithContact "u1" "1" 50 "dr").1 = true ∧
    ((HybridStorageManager.deleteContact stWithContact "u1" "1" 50 "dr").2.ledger.map
      (fun h => (h.dataType, h.originalId, h.id))) =
      [(DataType.contact, "1", "delete_50_dr")] := by
  constructor
  · decide
  · decide

/-- C6 (amended): on a successful relational delete exactly one new
`DataHash` is appended — the deletion marker, whose `originalId` is the
deleted contact's id but whose data-kind is `contact`, not a tombstone
kind; when the delete reports false nothing is appended. -/
theorem deleteContact_ledger (st : HybridState) (u cid : String) (now : Nat)
    (rand : String) :
    ((HybridStorageManager.deleteContact st u cid now rand).1 = true →
      (HybridStorageManager.deleteContact st u cid now rand).2.ledger =
        st.ledger ++ [HybridStorageManager.deletionMarker u cid now rand] ∧
      (HybridStorageManager.deletionMarker u cid now rand).dataType = .contact ∧
      (HybridStorageManager.deletionMarker u cid now rand).originalId = cid) ∧
    ((HybridStorageManager.deleteContact st u cid now rand).1 = false →
      (HybridStorageManager.deleteContact st u cid now rand).2.ledger = st.ledger) := by
  by_cases hd : (DatabaseContactManager.deleteContact st.db u cid).1 = true
  · constructor
    · intro _
      refine ⟨?_, rfl, rfl⟩
      simp only [HybridStorageManager.deleteContact]
      rw [if_pos hd]
      rfl
    · intro hfalse
      simp only [HybridStorageManager.deleteContact] at hfalse
      rw [if_pos hd] at hfalse
      cases hfalse
  · constructor
    · intro htrue
      simp only [HybridStorageManager.deleteContact] at htrue
      rw [if_neg hd] at htrue
      cases htrue
    · intro _
      simp only [HybridStorageManager.deleteContact]
      rw [if_neg hd]

/-- Witness for C6 (amended) at a concrete successful delete. -/
theorem deleteContact_ledger_witness :
    (HybridStorageManager.deleteContact stWithContact "u1" "1" 50 "dr").1 = true ∧
    (HybridStorageManager.deleteContact stWithContact "u1" "1" 50 "dr").2.ledger =
      stWithContact.ledger ++ [HybridStorageManager.deletionMarker "u1" "1" 50 "dr"] :=
  ⟨by decide,
    ((deleteContact_ledger stWithContact "u1" "1" 50 "dr").1 (by decide)).1⟩

/-! ### C7: verify after delete is relational not-found -/

/-- C7. After a successful `deleteContact(owner, id)`, every subsequent
`verifyDataIntegrity(owner, contact, id)` against the resulting database
fails with the relational not-found error, whatever the ledger holds
(tombstone marker, earlier records, or nothing). -/
theorem verify_after_delete (st : HybridState) (u cid : String) (now : Nat)
    (rand : String) (ledger2 : List DataHash)
    (_hdel : (HybridStorageManager.deleteContact st u cid now rand).1 = true) :
    HybridStorageManager.verifyDataIntegrity
      { db := (HybridStorageManager.deleteContact st u cid now rand).2.db,
        ledger := ledger2 } u .contact cid = .error .dataNotFound := by
  have hdb : (HybridStorageManager.deleteContact st u cid now rand).2.db =
      { st.db with contacts := (st.db.contacts.filter
          (fun c => !(decide (c.userId = u) && decide (c.id = cid)))) } := by
    simp only [HybridStorageManager.deleteContact, DatabaseContactManager.deleteContact]
    split <;> rfl
  rw [hdb]
  have hfind : (DatabaseContactManager.getUserContacts
      { st.db with contacts := (st.db.contacts.filter
          (fun c => !(decide (c.userId = u) && decide (c.id = cid)))) } u).find?
        (fun c => c.id = cid) = none := by
    rw [List.find?_eq_none]
    intro x hx
    unfold DatabaseContactManager.getUserContacts at hx
    have hm := (List.perm_insertionSort _ _).subset hx
    rw [List.mem_filter] at hm
    have hx2 := hm.1
    rw [List.mem_filter] at hx2
    have hu : x.userId = u := of_decide_eq_true hm.2
    have hkeep := hx2.2
    have hid : x.id ≠ cid := by
      intro hxid
      rw [hu, hxid] at hkeep
      simp at hkeep
    simpa using hid
  simp only [HybridStorageManager.verifyDataIntegrity,
    HybridStorageManager.verifyCurrentHash, HybridStorageManager.verifyCurrentRecord,
    hfind, Option.map_none']

/-- Witness for C7 with a tombstone marker present in the ledger. -/
theorem verify_after_delete_witness :
    (HybridStorageManager.deleteContact stWithContact "u1" "1" 50 "dr").1 = true ∧
    HybridStorageManager.verifyDataIntegrity
      { db := (HybridStorageManager.deleteContact stWithContact "u1" "1" 50 "dr").2.db,
        ledger := [HybridStorageManager.deletionMarker "u1" "1" 50 "dr"] } "u1" .contact "1" =
      .error .dataNotFound :=
  ⟨by decide,
    verify_after_delete stWithContact "u1" "1" 50 "dr"
      [HybridStorageManager.deletionMarker "u1" "1" 50 "dr"] (by decide)⟩

/-! ### C8: the retry loop is bounded -/

theorem retryLoopGo_attempts_le (probe : Nat → List DataHash) :
    ∀ fuel attempts results waited, attempts ≤ HybridStorageManager.golemMaxAttempts →
      (HybridStorageManager.retryLoopGo probe fuel attempts results waited).attempts ≤
        HybridStorageManager.golemMaxAttempts := by
  intro fuel
  induction fuel with
  | zero => intro a r w h; exact h
  | succ n ih =>
    intro a r w h
    simp only [HybridStorageManager.retryLoopGo]
    split
    · rename_i hcond
      rw [Bool.and_eq_true, decide_eq_true_eq] at hcond
      exact ih _ _ _ (by omega)
    · exact h

theorem retryLoopGo_waited_le (probe : Nat → List DataHash) :
    ∀ fuel attempts results waited,
      waited ≤ HybridStorageManager.golemRetryDelayMs *
        min attempts (HybridStorageManager.golemMaxAttempts - 1) →
      (HybridStorageManager.retryLoopGo probe fuel attempts results waited).waitedMs ≤
        HybridStorageManager.golemRetryDelayMs *
          (HybridStorageManager.golemMaxAttempts - 1) := by
  intro fuel
  induction fuel with
  | zero =>
    intro a r w h
    have : min a (HybridStorageManager.golemMaxAttempts - 1) ≤
        HybridStorageManager.golemMaxAttempts - 1 := Nat.min_le_right _ _
    calc (HybridStorageManager.retryLoopGo probe 0 a r w).waitedMs = w := rfl
      _ ≤ _ := le_trans h (Nat.mul_le_mul_left _ this)
  | succ n ih =>
    intro a r w h
    simp only [HybridStorageManager.retryLoopGo]
    split
    · rename_i hcond
      rw [Bool.and_eq_true, decide_eq_true_eq] at hcond
      apply ih
      split
      · rename_i hcond2
        rw [Bool.and_eq_true, decide_eq_true_eq] at hcond2
        have h3 : a + 1 ≤ HybridStorageManager.golemMaxAttempts - 1 := by
          simp only [HybridStorageManager.golemMaxAttempts] at hcond2 ⊢
          omega
        have hm : min a (HybridStorageManager.golemMaxAttempts - 1) = a := by
          simp only [HybridStorageManager.golemMaxAttempts] at hcond2 ⊢
          omega
        rw [hm] at h
        have hm2 : min (a + 1) (HybridStorageManager.golemMaxAttempts - 1) = a + 1 :=
          Nat.min_eq_left h3
        rw [hm2, Nat.mul_succ]
        omega
      · have hmono : min a (HybridStorageManager.golemMaxAttempts - 1) ≤
            min (a + 1) (HybridStorageManager.golemMaxAttempts - 1) := by
          simp only [HybridStorageManager.golemMaxAttempts]
          omega
        exact le_trans h (Nat.mul_le_mul_left _ hmono)
    · have : min a (HybridStorageManager.golemMaxAttempts - 1) ≤
          HybridStorageManager.golemMaxAttempts - 1 := Nat.min_le_right _ _
      exact le_trans h (Nat.mul_le_mul_left _ this)

theorem golemQueryWithRetry_all_empty (probe : Nat → List DataHash)
    (h : ∀ i, probe i = []) :
    HybridStorageManager.golemQueryWithRetry probe =
      { attempts := 3, results := [], waitedMs := 4000 } := by
  have hp : probe = fun _ => [] := funext h
  rw [hp]
  rfl

/-- C8. The ledger retry loop of `verifyDataIntegrity` always performs at
most `maxAttempts = 3` queries with a fixed 2000 ms delay between empty
results (at most 4000 ms total wait), for every sequence of query results;
when every attempt comes back empty it stops after exactly 3 attempts, and
`verifyDataIntegrity` then reports the failure instead of retrying on. -/
theorem retry_loop_bounded (probe : Nat → List DataHash) :
    (HybridStorageManager.golemQueryWithRetry probe).attempts ≤
      HybridStorageManager.golemMaxAttempts ∧
    (HybridStorageManager.golemQueryWithRetry probe).waitedMs ≤
      HybridStorageManager.golemRetryDelayMs *
        (HybridStorageManager.golemMaxAttempts - 1) ∧
    ((∀ i, probe i = []) → HybridStorageManager.golemQueryWithRetry probe =
      { attempts := 3, results := [], waitedMs := 4000 }) ∧
    (∀ st u k oid, (HybridStorageManager.verifyCurrentHash st u k oid).isOk = true →
      golemQuery st.ledger k.toDataType u oid = [] →
      HybridStorageManager.verifyDataIntegrity st u k oid =
        .error (.hashNotFound HybridStorageManager.golemMaxAttempts)) := by
  refine ⟨retryLoopGo_attempts_le probe _ _ _ _ (by decide),
    retryLoopGo_waited_le probe _ _ _ _ (by simp),
    golemQueryWithRetry_all_empty probe, ?_⟩
  intro st u k oid hok hq
  obtain ⟨ch, hch⟩ : ∃ ch, HybridStorageManager.verifyCurrentHash st u k oid = .ok ch := by
    cases hv : HybridStorageManager.verifyCurrentHash st u k oid with
    | ok ch => exact ⟨ch, rfl⟩
    | error e => rw [hv] at hok; cases hok
  simp only [HybridStorageManager.verifyDataIntegrity, hch]
  rw [golemQueryWithRetry_all_empty _ (fun i => hq)]
  rfl

/-- Witness for C8: the constant-empty probe, and a state whose contact
exists relationally but has no ledger entry. -/
theorem retry_loop_bounded_witness :
    (∀ i : Nat, (fun _ : Nat => ([] : List DataHash)) i = []) ∧
    HybridStorageManager.golemQueryWithRetry (fun _ => []) =
      { attempts := 3, results := [], waitedMs := 4000 } ∧
    (HybridStorageManager.verifyCurrentHash stWithContact "u1" .contact "1").isOk = true ∧
    HybridStorageManager.verifyDataIntegrity stWithContact "u1" .contact "1" =
      .error (.hashNotFound 3) :=
  ⟨fun _ => rfl,
    (retry_loop_bounded (fun _ => [])).2.2.1 (fun _ => rfl),
    by decide,
    (retry_loop_bounded (fun _ => [])).2.2.2 stWithContact "u1" .contact "1"
      (by decide) (by decide)⟩

/-! ### C10: the base-builder branch of verification ignores originalId -/

theorem golemQueryWithRetry_const (q : List DataHash) :
    HybridStorageManager.golemQueryWithRetry (fun _ => q) =
      if q.isEmpty then { attempts := 3, results := [], waitedMs := 4000 }
      else { attempts := 1, results := q, waitedMs := 0 } := by
  by_cases hq : q.isEmpty = true
  · rw [if_pos hq]
    rw [List.isEmpty_iff] at hq
    subst hq
    rfl
  · rw [if_neg hq]
    have hq2 : q.isEmpty = false := by simpa using hq
    simp [HybridStorageManager.golemQueryWithRetry,
      HybridStorageManager.retryLoopGo, hq2,
      HybridStorageManager.golemMaxAttempts]

/-- C10. For kind `base_builder`, `verifyDataIntegrity` reads the
relational record by owner alone: for any two `originalId` arguments the
recomputed current hash is the digest of the owner's single stored
application; only the ledger query carries the `originalId` predicate. -/
theorem verifyAgainstResults_ok {ch : String} {res : List DataHash}
    {r : HybridStorageManager.VerifyResult}
    (h : HybridStorageManager.verifyAgainstResults ch res = .ok r) :
    r.currentHash = ch ∧ ∃ dh, dh ∈ res ∧ r.storedHash = dh.sha256Hash := by
  cases res with
  | nil => cases h
  | cons stored rest =>
    simp only [HybridStorageManager.verifyAgainstResults, Except.ok.injEq] at h
    subst h
    exact ⟨rfl, stored, List.mem_cons_self _ _, rfl⟩

theorem verify_base_builder_ignores_id (st : HybridState) (u : String)
    (b : BaseBuilder) (id1 id2 : String)
    (hb : BaseBuilderManager.getBaseBuilderByUserId st.db u = some b) :
    HybridStorageManager.verifyCurrentHash st u .base_builder id1 =
      .ok (generateHash (baseBuilderToRecord b)) ∧
    HybridStorageManager.verifyCurrentHash st u .base_builder id2 =
      .ok (generateHash (baseBuilderToRecord b)) ∧
    (∀ oid r, HybridStorageManager.verifyDataIntegrity st u .base_builder oid = .ok r →
      r.currentHash = generateHash (baseBuilderToRecord b) ∧
      ∃ dh, dh ∈ golemQuery st.ledger .base_builder u oid ∧
        r.storedHash = dh.sha256Hash) := by
  have hch : ∀ oid, HybridStorageManager.verifyCurrentHash st u .base_builder oid =
      .ok (generateHash (baseBuilderToRecord b)) := by
    intro oid
    simp only [HybridStorageManager.verifyCurrentHash,
      HybridStorageManager.verifyCurrentRecord, hb, Option.map_some']
  refine ⟨hch id1, hch id2, ?_⟩
  intro oid r hr
  simp only [HybridStorageManager.verifyDataIntegrity, hch oid,
    HybridStorageManager.VerifyKind.toDataType] at hr
  rw [golemQueryWithRetry_const] at hr
  obtain ⟨hcur, dh, hmem, hst⟩ := verifyAgainstResults_ok hr
  refine ⟨hcur, dh, ?_, hst⟩
  by_cases hq : (golemQuery st.ledger DataType.base_builder u oid).isEmpty = true
  · rw [if_pos hq] at hmem
    cases hmem
  · rw [if_neg hq] at hmem
    exact hmem

/-- Witness for C10: a state holding one application and its anchoring
ledger record. -/
theorem verify_base_builder_ignores_id_witness :
    BaseBuilderManager.getBaseBuilderByUserId stWithBuilder.db "u2" =
      some builderFixture ∧
    HybridStorageManager.verifyCurrentHash stWithBuilder "u2" .base_builder "whatever" =
      .ok (generateHash (baseBuilderToRecord builderFixture)) ∧
    HybridStorageManager.verifyCurrentHash stWithBuilder "u2" .base_builder "other" =
      .ok (generateHash (baseBuilderToRecord builderFixture)) :=
  ⟨by decide,
    (verify_base_builder_ignores_id stWithBuilder "u2" builderFixture
      "whatever" "other" (by decide)).1,
    (verify_base_builder_ignores_id stWithBuilder "u2" builderFixture
      "whatever" "other" (by decide)).2.1⟩

/-! ### C1: no per-owner uniqueness check in addBaseBuilder -/

/-- Counterexample to C1 as stated: for an owner who already has a stored
application, a second `addBaseBuilder` call succeeds (no AlreadyExists
failure exists in the code), inserts a second application, and the original
application is still the one `getBaseBuilderByUserId` returns. -/
theorem addBaseBuilder_counterexample :
    (HybridStorageManager.addBaseBuilder stWithBuilder "u2" builderDataFixture
        11 "r2" "h2").toOption.map
      (fun p => (p.1.id, p.2.db.baseBuilders.length,
        (BaseBuilderManager.getBaseBuilderByUserId p.2.db "u2").map (fun b => b.id))) =
      some ("bb_11_r2", 2, some "bb_10_r1") := by decide

/-- C1 (amended): the hybrid core's `addBaseBuilder` never checks for an
existing application: whenever the generated row id is fresh, the call
succeeds even though the owner already has an application, appending a
second one, while `getBaseBuilderByUserId` keeps returning the first stored
application unchanged. The at-most-one rule is enforced only by the
conversational front-end, which fetches the application and declines to
call `addBaseBuilder` when one exists. -/
theorem addBaseBuilder_no_uniqueness (st : HybridState) (u : String)
    (data : BaseBuilderData) (b0 : BaseBuilder) (now : Nat) (rand hashRand : String)
    (hb : BaseBuilderManager.getBaseBuilderByUserId st.db u = some b0)
    (hid : (st.db.baseBuilders.any
      (fun b => b.id = "bb_" ++ Nat.repr now ++ "_" ++ rand)) = false) :
    ∃ b1 st1, HybridStorageManager.addBaseBuilder st u data now rand hashRand =
        .ok (b1, st1) ∧
      st1.db.baseBuilders = st.db.baseBuilders ++ [b1] ∧
      b1.userId = u ∧
      BaseBuilderManager.getBaseBuilderByUserId st1.db u = some b0 := by
  simp only [HybridStorageManager.addBaseBuilder, BaseBuilderManager.createBaseBuilder]
  rw [if_neg (by simp only [hid]; exact fun h => nomatch h)]
  refine ⟨_, _, rfl, rfl, rfl, ?_⟩
  unfold BaseBuilderManager.getBaseBuilderByUserId at hb ⊢
  rw [List.filter_append]
  rw [List.head?_append]
  rw [hb]
  rfl

/-- Witness for C1 (amended) at the concrete one-application state. -/
theorem addBaseBuilder_no_uniqueness_witness :
    BaseBuilderManager.getBaseBuilderByUserId stWithBuilder.db "u2" =
      some builderFixture ∧
    (stWithBuilder.db.baseBuilders.any
      (fun b => b.id = "bb_" ++ Nat.repr 11 ++ "_" ++ "r2")) = false ∧
    (∃ b1 st1, HybridStorageManager.addBaseBuilder stWithBuilder "u2"
        builderDataFixture 11 "r2" "h2" = .ok (b1, st1) ∧
      st1.db.baseBuilders = stWithBuilder.db.baseBuilders ++ [b1] ∧
      b1.userId = "u2" ∧
      BaseBuilderManager.getBaseBuilderByUserId st1.db "u2" = some builderFixture) :=
  ⟨by decide, by decide,
    addBaseBuilder_no_uniqueness stWithBuilder "u2" builderDataFixture
      builderFixture 11 "r2" "h2" (by decide) (by decide)⟩

/-! ### C2: upload failure is masked by a mock locator -/

/-- C2 is the intended design, but the code substitutes a synthetic
locator: on an authentication failure (and likewise on the zero-size
rejection), `addPhotoToContact` reports success and writes a dangling
`Qm…` mock reference into the contact's photo fields instead of failing
with an upload error and leaving them unset. -/
theorem addPhoto_mock_on_upload_failure :
    ((HybridStorageManager.addPhotoToContact stWithContact "u1" "1" [1, 2, 3]
        true "gw" (.error "Authentication failed") "MOCKRAND" 99 "ir").toOption.map
      (fun p => (p.1, p.2.db.contacts.map (fun c => (c.photoFileId, c.photoPath)))) =
      some (true, [(some "QmMOCKRAND", some "https://gw/ipfs/QmMOCKRAND")])) ∧
    ((HybridStorageManager.addPhotoToContact stWithContact "u1" "1" []
        true "gw" (.error "File size must be greater than 0") "MOCKRAND2" 99 "ir").toOption.map
      (fun p => (p.1, p.2.db.contacts.map (fun c => c.photoFileId))) =
      some (true, [some "QmMOCKRAND2"])) := by
  constructor
  · decide
  · decide

end Mattrix
